import Mathlib

/-!
A verification development for the `freecad-mcp` RPC server
(`addon/FreeCADMCP/rpc_server/rpc_server.py` and its `ops/` helpers).

The development shallowly embeds:
* the GUI task-queue pair (`rpc_request_queue` / `rpc_response_queue`) and the
  GUI-thread pump `process_gui_tasks`;
* the request-bridge pattern used by every `FreeCADRPC` method
  (enqueue a closure, then block on the response queue);
* the transport-thread action traces of the `FreeCADRPC` methods;
* the GUI-side operation `create_document_gui` over an abstract kernel
  interface whose primitive calls may fail;
* the server lifecycle (`start_rpc_server` / `stop_rpc_server`);
* `validate_allowed_ips`, `_parse_allowed_ips` and
  `FilteredXMLRPCServer.verify_request`;
* settings persistence (`load_settings` / `save_settings`).

The FreeCAD kernel, Qt and the Python standard library are external
collaborators; where their behaviour matters it is modelled explicitly and the
modelling scope is stated in the doc comment of the corresponding definition.
-/

namespace FreeCADMCP

/-! ## Task queue pair and the GUI-thread pump

`rpc_request_queue` and `rpc_response_queue` are FIFO queues, modelled as
lists (head = front of the queue).  A Work Item is the zero-argument closure
each `FreeCADRPC` method puts on `rpc_request_queue`: invoked on the kernel
thread, it transforms the kernel state and yields an optional result
(`none` models Python `None`, which the pump does not publish). -/

/-- A Work Item: a deferred zero-argument computation against kernel state
`κ`, producing a new kernel state and an optional result of type `ρ`. -/
def WorkItem (κ ρ : Type) : Type := κ → κ × Option ρ

/-- The shared bridge state: the pending queue (`rpc_request_queue`), the
completed queue (`rpc_response_queue`) and the kernel state. -/
structure BridgeState (κ ρ : Type) where
  pending : List (WorkItem κ ρ)
  completed : List ρ
  kernel : κ

/-- One activation of `process_gui_tasks` (rpc_server.py:156-162), with no
concurrent enqueues during the activation:

    while not rpc_request_queue.empty():
        task = rpc_request_queue.get()
        res = task()
        if res is not None:
            rpc_response_queue.put(res)

The loop drains `pending` front to back, executing each Work Item against the
kernel state and appending each non-`None` result to `completed`.  (The final
`QTimer.singleShot(500, process_gui_tasks)` reschedule is not part of the
queue transformation; the raising variant below models it.) -/
def process_gui_tasks {κ ρ : Type} : BridgeState κ ρ → BridgeState κ ρ
  | ⟨[], c, k⟩ => ⟨[], c, k⟩
  | ⟨t :: rest, c, k⟩ =>
      match t k with
      | (k2, none) => process_gui_tasks ⟨rest, c, k2⟩
      | (k2, some r) => process_gui_tasks ⟨rest, c ++ [r], k2⟩
termination_by s => s.pending.length

/-- Mathematical description of executing a list of Work Items in arrival
order: the final kernel state together with the list of optional results,
one per item, in the same order. -/
def execAll {κ ρ : Type} : List (WorkItem κ ρ) → κ → κ × List (Option ρ)
  | [], k => (k, [])
  | t :: rest, k =>
      let p := t k
      let q := execAll rest p.1
      (q.1, p.2 :: q.2)

/-! ## The request bridge

Every `FreeCADRPC` method follows the same pattern
(e.g. `create_document`, rpc_server.py:257-263):

    rpc_request_queue.put(lambda: ...)
    res = rpc_response_queue.get()

Under the strictly sequential discipline (no call begins before the previous
one returned), the pump activation that serves a call sees exactly the one
newly enqueued item.  A blocking `get` on an empty completed queue never
returns; the model reports that outcome as `none`. -/

/-- One strictly sequential bridge call: enqueue the Work Item, let the pump
activation drain, then perform the blocking `get` on the completed queue
(`none` = the get blocks forever because nothing was published). -/
def bridgeCall {κ ρ : Type} (item : WorkItem κ ρ) (s : BridgeState κ ρ) :
    Option ρ × BridgeState κ ρ :=
  let s2 := process_gui_tasks ⟨s.pending ++ [item], s.completed, s.kernel⟩
  match s2.completed with
  | [] => (none, s2)
  | r :: rest => (some r, ⟨s2.pending, rest, s2.kernel⟩)

/-- A strictly sequential run of bridge calls: the nth element of the output
list is the outcome observed by the nth caller. -/
def bridgeCalls {κ ρ : Type} : List (WorkItem κ ρ) → BridgeState κ ρ →
    List (Option ρ) × BridgeState κ ρ
  | [], s => ([], s)
  | item :: rest, s =>
      let p := bridgeCall item s
      let q := bridgeCalls rest p.2
      (p.1 :: q.1, q.2)

/-- Helper: one pump activation drains the whole pending queue in arrival
order, appends exactly the non-`None` results to the completed queue in the
same relative order, and leaves the kernel in the state reached by executing
the items sequentially. -/
theorem process_gui_tasks_eq {κ ρ : Type}
    (items : List (WorkItem κ ρ)) (c0 : List ρ) (k0 : κ) :
    process_gui_tasks ⟨items, c0, k0⟩ =
      ⟨[], c0 ++ ((execAll items k0).2.filterMap id), (execAll items k0).1⟩ := by
  induction items generalizing c0 k0 with
  | nil => simp [process_gui_tasks, execAll]
  | cons t rest ih =>
    rcases h : t k0 with ⟨k2, r⟩
    cases r with
    | none =>
      rw [process_gui_tasks]
      simp [h, execAll, ih, List.filterMap_cons]
    | some v =>
      rw [process_gui_tasks]
      simp [h, execAll, ih, List.filterMap_cons]

/-- C3: if exactly `K` Work Items are pending when the GUI-thread pump
activates and none are enqueued concurrently, the activation dequeues and
executes exactly those `K` items in arrival order (final pending queue empty,
kernel state the sequential execution of all of them) and pushes onto the
completed queue exactly the non-`None` results, preserving relative order. -/
theorem process_gui_tasks_drains_in_order {κ ρ : Type}
    (items : List (WorkItem κ ρ)) (c0 : List ρ) (k0 : κ) :
    process_gui_tasks ⟨items, c0, k0⟩ =
      ⟨[], c0 ++ ((execAll items k0).2.filterMap id), (execAll items k0).1⟩ :=
  process_gui_tasks_eq items c0 k0

/-- C1: for every strictly sequential sequence of `N` bridge calls starting
from the server's initial state (both queues empty), the nth call observes
exactly the result produced by the nth enqueued Work Item (`none` on both
sides models a Work Item that published nothing, leaving its caller blocked),
for any `N ≥ 0`. -/
theorem bridge_sequential_nth_result {κ ρ : Type}
    (items : List (WorkItem κ ρ)) (k : κ) :
    (bridgeCalls items ⟨[], [], k⟩).1 = (execAll items k).2 := by
  induction items generalizing k with
  | nil => rfl
  | cons t rest ih =>
    rcases h : t k with ⟨k2, r⟩
    have hpump := process_gui_tasks_eq [t] [] k
    rw [show execAll [t] k = (k2, [r]) by simp [execAll, h]] at hpump
    cases r with
    | none =>
      simp only [List.filterMap_cons, List.filterMap_nil, id_eq,
        List.append_nil, List.nil_append] at hpump
      simp [bridgeCalls, bridgeCall, hpump, execAll, h, ih k2]
    | some v =>
      simp only [List.filterMap_cons, List.filterMap_nil, id_eq,
        List.append_nil, List.nil_append] at hpump
      simp [bridgeCalls, bridgeCall, hpump, execAll, h, ih k2]

/-! ## Transport-thread action traces of the `FreeCADRPC` methods

Each remotely invokable method of `FreeCADRPC` (rpc_server.py:251-443) runs
on a transport thread.  `transportActs` records, in program order, which
bridge and kernel actions its body performs on that thread (pure argument
marshalling is omitted; for branching bodies the listed kernel/queue actions
are those the body can perform on the transport thread). -/

/-- An action performed by an RPC method body on the transport thread. -/
inductive TransportAct where
  /-- `rpc_request_queue.put(...)` -/
  | enqueueWorkItem
  /-- `rpc_response_queue.get()` -/
  | awaitResponse
  /-- `FreeCAD.getDocument(...)` called directly (kernel document API) -/
  | kernelGetDocument
  /-- `FreeCAD.listDocuments()` called directly (kernel document API) -/
  | kernelListDocuments
  /-- `doc.getObject(...)` called directly (kernel object API) -/
  | kernelGetObject
  /-- reading `doc.Objects` / object properties for `serialize_object` -/
  | kernelReadObjects
  /-- `parts_library.get_parts_list()` (parts catalogue on disk, no kernel
  document/object call; the module is not among the sources, modelled from
  the spec, which treats the parts library as transport-side glue outside
  the kernel) -/
  | libraryCatalogRead
  /-- temp-file create/read/delete around the screenshot round trip -/
  | tempFileAccess
deriving DecidableEq

/-- The remotely invokable methods of `FreeCADRPC`. -/
inductive RpcMethod where
  | ping
  | create_document
  | create_object
  | edit_object
  | delete_object
  | create_sketch
  | add_sketch_geometry
  | add_sketch_constraint
  | get_sketch_diagnostics
  | recompute_document
  | execute_code
  | get_objects
  | get_object
  | insert_part_from_library
  | list_documents
  | get_parts_list
  | get_active_screenshot
deriving DecidableEq

/-- Transport-thread actions of each `FreeCADRPC` method body, transcribed
from rpc_server.py:251-443. -/
def transportActs : RpcMethod → List TransportAct
  | .ping => []
  | .create_document => [.enqueueWorkItem, .awaitResponse]
  | .create_object => [.enqueueWorkItem, .awaitResponse]
  | .edit_object => [.enqueueWorkItem, .awaitResponse]
  | .delete_object => [.enqueueWorkItem, .awaitResponse]
  | .create_sketch => [.enqueueWorkItem, .awaitResponse]
  | .add_sketch_geometry => [.enqueueWorkItem, .awaitResponse]
  | .add_sketch_constraint => [.enqueueWorkItem, .awaitResponse]
  | .get_sketch_diagnostics => [.enqueueWorkItem, .awaitResponse]
  | .recompute_document => [.enqueueWorkItem, .awaitResponse]
  | .execute_code => [.enqueueWorkItem, .awaitResponse]
  | .get_objects => [.kernelGetDocument, .kernelReadObjects]
  | .get_object => [.kernelGetDocument, .kernelGetObject, .kernelReadObjects]
  | .insert_part_from_library => [.enqueueWorkItem, .awaitResponse]
  | .list_documents => [.kernelListDocuments]
  | .get_parts_list => [.libraryCatalogRead]
  | .get_active_screenshot =>
      [.enqueueWorkItem, .awaitResponse, .tempFileAccess,
       .enqueueWorkItem, .awaitResponse, .tempFileAccess]

/-- Whether a transport-thread action is a direct call against the capability
kernel (the FreeCAD document/object API). -/
def TransportAct.isKernelCall : TransportAct → Bool
  | .kernelGetDocument => true
  | .kernelListDocuments => true
  | .kernelGetObject => true
  | .kernelReadObjects => true
  | _ => false

/-- Whether an RPC method body issues at least one direct kernel call from
the transport thread. -/
def issuesDirectKernelCall (m : RpcMethod) : Bool :=
  (transportActs m).any TransportAct.isKernelCall

/-- C2, counterexample: `FreeCADRPC.list_documents` calls
`FreeCAD.listDocuments()` directly from the transport thread
(rpc_server.py:388-389), so it is not the case that every RPC method reaches
the kernel only through the pending queue. -/
theorem list_documents_calls_kernel_directly :
    ¬ (∀ m : RpcMethod, issuesDirectKernelCall m = false) := by
  intro h
  exact absurd (h RpcMethod.list_documents) (by decide)

/-- C2, amended: the RPC methods that issue direct kernel
(document/object API) calls from the transport thread are exactly the three
read-only methods `get_objects`, `get_object` and `list_documents`; every
other method reaches the kernel only as a Work Item enqueued on the pending
queue. -/
theorem direct_kernel_calls_exactly_read_methods (m : RpcMethod) :
    issuesDirectKernelCall m = true ↔
      (m = RpcMethod.get_objects ∨ m = RpcMethod.get_object ∨
       m = RpcMethod.list_documents) := by
  cases m <;> simp [issuesDirectKernelCall, transportActs, TransportAct.isKernelCall]

/-! ## Work Items that may raise, and `create_document_gui`

Python Work Items can raise: a closure whose body raises an uncaught
exception aborts the pump loop, because `process_gui_tasks` has no
try/except, and the final `QTimer.singleShot(500, process_gui_tasks)` line —
the reschedule of the next activation — is then never executed.

The kernel calls a GUI-side operation performs are modelled by an abstract
interface whose primitives may fail (`Except.error` = a raised Python
exception). -/

/-- A Work Item that may raise: `Except.error e` models an uncaught Python
exception escaping the closure. -/
def RaisingWorkItem (κ ρ : Type) : Type := κ → Except String (κ × Option ρ)

/-- `process_gui_tasks` over Work Items that may raise.  Returns
`(kernel, published results, true)` when the loop completes and the
`QTimer.singleShot` reschedule runs, and `Except.error e` when a Work Item
raises: the loop has no handler, the exception propagates, and the
reschedule line is never reached. -/
def process_gui_tasks_raising {κ ρ : Type} :
    List (RaisingWorkItem κ ρ) → κ → List ρ → Except String (κ × List ρ × Bool)
  | [], k, c => .ok (k, c, true)
  | t :: rest, k, c =>
      match t k with
      | .error e => .error e
      | .ok (k2, none) => process_gui_tasks_raising rest k2 c
      | .ok (k2, some r) => process_gui_tasks_raising rest k2 (c ++ [r])

/-- The kernel primitives `create_document_gui` uses
(`FreeCAD.newDocument`, `doc.recompute()`), each of which may raise. -/
structure KernelOps (κ : Type) where
  newDocument : String → κ → Except String (κ × String)
  recomputeDoc : String → κ → Except String κ

/-- `create_document_gui` (ops/object_ops.py:5-9), transcribed:

    def create_document_gui(name):
        doc = FreeCAD.newDocument(name)
        doc.recompute()
        FreeCAD.Console.PrintMessage(...)
        return True

There is no try/except anywhere in the body: a failure of either kernel call
propagates out of the function (unlike `create_object_gui`,
`edit_object_gui`, `delete_object_gui`, the sketch ops and
`execute_code_gui`, which all catch `Exception` and return an error string).
-/
def create_document_gui {κ : Type} (K : KernelOps κ) (name : String) (k : κ) :
    Except String (κ × Bool) := do
  let (k2, doc) ← K.newDocument name k
  let k3 ← K.recomputeDoc doc k2
  pure (k3, true)

/-- The Work Item `FreeCADRPC.create_document` enqueues
(rpc_server.py:258: `lambda: self._create_document_gui(name)`); its `True`
return value is non-`None`, so on success the pump publishes it. -/
def createDocumentItem {κ : Type} (K : KernelOps κ) (name : String) :
    RaisingWorkItem κ Bool :=
  fun k => (create_document_gui K name k).map (fun p => (p.1, some p.2))

/-- A kernel in which `FreeCAD.newDocument` raises (any kernel failure mode:
out of memory, a failing document observer, etc.). -/
def failingKernel : KernelOps Unit where
  newDocument := fun _ _ => .error "newDocument failed"
  recomputeDoc := fun _ k => .ok k

/-- C4: evaluating the code at the failing input.  The Work Item enqueued by
`create_document("MyDoc")` does NOT convert a kernel-call failure into an
error value: executing it raises out of the closure, and the pump activation
containing it aborts before its `QTimer.singleShot` reschedule line, so the
next scheduled activation is skipped.  This contradicts the claim (and the
stated propagation policy); every sibling GUI op catches `Exception`, so the
missing try/except in `create_document_gui` is the slip. -/
theorem create_document_failure_escapes_pump :
    createDocumentItem failingKernel "MyDoc" () = .error "newDocument failed"
    ∧ process_gui_tasks_raising [createDocumentItem failingKernel "MyDoc"] () []
        = .error "newDocument failed" := by
  constructor <;> rfl

/-! ## Settings persistence (rpc_server.py:41-79)

A settings record is the insertion-ordered key→value mapping of the persisted
JSON object (a Python dict); modelled as an association list, head first,
with `slookup` returning the binding a dict lookup would (a parsed JSON
object has unique keys).  The stored values in this program are booleans and
strings (`_DEFAULT_SETTINGS`, rpc_server.py:45-50). -/

/-- A settings value: the JSON value types this program stores. -/
inductive SVal where
  | bool (b : Bool)
  | str (s : String)
deriving DecidableEq

/-- Python truthiness of a settings value (`if remote_enabled:`). -/
def SVal.pyTruthy : SVal → Bool
  | .bool b => b
  | .str s => !s.isEmpty

/-- Python `str(...)`/f-string rendering of a settings value. -/
def SVal.pyStr : SVal → String
  | .bool b => if b then "True" else "False"
  | .str s => s

/-- A settings record: insertion-ordered key→value mapping. -/
abbrev Settings : Type := List (String × SVal)

/-- Dict lookup on a settings record. -/
def slookup (k : String) : Settings → Option SVal
  | [] => none
  | (k2, v) :: rest => if k2 = k then some v else slookup k rest

/-- Python `settings.get(key, default)`. -/
def pyGet (m : Settings) (k : String) (d : SVal) : SVal :=
  (slookup k m).getD d

/-- `_DEFAULT_SETTINGS` (rpc_server.py:45-50). -/
def _DEFAULT_SETTINGS : Settings :=
  [("remote_enabled", .bool false),
   ("allowed_ips", .str "127.0.0.1"),
   ("auto_start_server", .bool true),
   ("startup_remote_enabled", .bool false)]

/-- The on-disk settings file: absent, unreadable/unparsable, or a parsed
JSON mapping.  Writing a record and reading it back recovers an equal
mapping (`json.dump`/`json.load` round-trip on a string-keyed dict of JSON
values), so the parsed mapping itself is the stored content. -/
inductive FileContent where
  | absent
  | invalid
  | json (m : Settings)
deriving DecidableEq

/-- One step of the backfill loop in `load_settings` (rpc_server.py:64-66):

    if key not in settings:
        settings[key] = value

Assigning a fresh key appends it at the end of the dict (insertion order). -/
def insertIfMissing (m : Settings) (kv : String × SVal) : Settings :=
  if (slookup kv.1 m).isSome then m else m ++ [kv]

/-- The backfill loop of `load_settings`: for each default key absent from
the parsed record, append its default value. -/
def backfillDefaults (m : Settings) : Settings :=
  _DEFAULT_SETTINGS.foldl insertIfMissing m

/-- `load_settings` (rpc_server.py:57-70): if the file exists and parses, the
parsed record with defaults backfilled is returned; on a missing file or any
read/parse failure a copy of `_DEFAULT_SETTINGS` is returned.  The function
only opens the file for reading, so it returns the file content unchanged. -/
def load_settings (fs : FileContent) : Settings × FileContent :=
  match fs with
  | .absent => (_DEFAULT_SETTINGS, fs)
  | .invalid => (_DEFAULT_SETTINGS, fs)
  | .json m => (backfillDefaults m, fs)

/-- `save_settings` (rpc_server.py:73-79), successful-write path: serialize
the record over the fixed path.  (On an I/O failure the code logs and
swallows the error; the claims about `save_settings` assume the write
succeeds.) -/
def save_settings (settings : Settings) (_fs : FileContent) : FileContent :=
  .json settings

/-- Helper: lookup distributes over append. -/
theorem slookup_append (k : String) (l1 l2 : Settings) :
    slookup k (l1 ++ l2) =
      match slookup k l1 with
      | some v => some v
      | none => slookup k l2 := by
  induction l1 with
  | nil => simp [slookup]
  | cons p rest ih =>
    rcases p with ⟨k2, v⟩
    by_cases h : k2 = k <;> simp [slookup, h, ih]

/-- Helper: a present binding survives `insertIfMissing`. -/
theorem insertIfMissing_lookup_some {k : String} {v : SVal} {m : Settings}
    (h : slookup k m = some v) (kv : String × SVal) :
    slookup k (insertIfMissing m kv) = some v := by
  unfold insertIfMissing
  by_cases hm : (slookup kv.1 m).isSome
  · simp [hm, h]
  · simp [hm, slookup_append, h]

/-- Helper: `insertIfMissing` fills exactly its own missing key. -/
theorem insertIfMissing_lookup_self {k : String} {m : Settings}
    (h : slookup k m = none) (d : SVal) :
    slookup k (insertIfMissing m (k, d)) = some d := by
  unfold insertIfMissing
  simp [h, slookup_append, slookup]

/-- Helper: `insertIfMissing` does not touch other keys. -/
theorem insertIfMissing_lookup_other {k : String} {m : Settings}
    (kv : String × SVal) (hne : k ≠ kv.1) :
    slookup k (insertIfMissing m kv) = slookup k m := by
  unfold insertIfMissing
  by_cases hm : (slookup kv.1 m).isSome
  · simp [hm]
  · cases hv : slookup k m with
    | some v => simp [hm, slookup_append, hv]
    | none =>
      simp [hm, slookup_append, hv, slookup]
      exact fun h => absurd h.symm hne

/-- Helper: a present binding survives the whole backfill fold. -/
theorem foldl_insertIfMissing_lookup_some {k : String} {v : SVal}
    (L : List (String × SVal)) (m : Settings) (h : slookup k m = some v) :
    slookup k (L.foldl insertIfMissing m) = some v := by
  induction L generalizing m with
  | nil => exact h
  | cons p rest ih => exact ih _ (insertIfMissing_lookup_some h p)

/-- Helper: a key missing from the record but present among the (key-unique)
defaults gets its default value from the backfill fold. -/
theorem foldl_insertIfMissing_lookup_missing {k : String} {d : SVal} :
    ∀ (L : List (String × SVal)) (m : Settings),
      (L.map Prod.fst).Nodup → (k, d) ∈ L → slookup k m = none →
      slookup k (L.foldl insertIfMissing m) = some d := by
  intro L
  induction L with
  | nil =>
    intro m _ hmem _
    cases hmem
  | cons p rest ih =>
    intro m hnodup hmem h
    rcases p with ⟨k2, d2⟩
    rcases List.mem_cons.mp hmem with heq | htail
    · rw [Prod.mk.injEq] at heq
      rcases heq with ⟨hk, hd⟩
      subst hk
      subst hd
      exact foldl_insertIfMissing_lookup_some rest _
        (insertIfMissing_lookup_self h d)
    · have hkey : k ∈ rest.map Prod.fst := by
        have := List.mem_map_of_mem Prod.fst htail
        simpa using this
      have hnodup2 : k2 ∉ rest.map Prod.fst ∧ (rest.map Prod.fst).Nodup := by
        rw [List.map_cons] at hnodup
        exact List.nodup_cons.mp hnodup
      have hk2 : k ≠ k2 := by
        intro hk
        exact hnodup2.1 (hk ▸ hkey)
      have hstep : slookup k (insertIfMissing m (k2, d2)) = none := by
        rw [insertIfMissing_lookup_other (k2, d2) hk2]
        exact h
      exact ih _ hnodup2.2 htail hstep

/-- C7: loading a stored settings file that parses as a JSON mapping returns
a record in which every key present in the file keeps its stored value and
every default key absent from the file is set to its documented default, and
the load does not modify the on-disk file. -/
theorem load_settings_backfills_defaults (m : Settings) :
    (load_settings (.json m)).2 = .json m ∧
    (∀ k v, slookup k m = some v →
      slookup k (load_settings (.json m)).1 = some v) ∧
    (∀ k d, (k, d) ∈ _DEFAULT_SETTINGS → slookup k m = none →
      slookup k (load_settings (.json m)).1 = some d) := by
  refine ⟨rfl, ?_, ?_⟩
  · intro k v h
    exact foldl_insertIfMissing_lookup_some _ m h
  · intro k d hmem h
    exact foldl_insertIfMissing_lookup_missing _ m (by decide) hmem h

/-- C7 witness: a stored file holding only `allowed_ips` keeps that value,
gets the missing `remote_enabled` backfilled to its default `False`, and the
file is unchanged. -/
theorem load_settings_backfills_defaults_witness :
    (load_settings (.json [("allowed_ips", .str "10.0.0.1")])).2 =
        .json [("allowed_ips", .str "10.0.0.1")] ∧
    slookup "allowed_ips"
        (load_settings (.json [("allowed_ips", .str "10.0.0.1")])).1 =
      some (.str "10.0.0.1") ∧
    slookup "remote_enabled"
        (load_settings (.json [("allowed_ips", .str "10.0.0.1")])).1 =
      some (.bool false) := by
  obtain ⟨h1, h2, h3⟩ :=
    load_settings_backfills_defaults [("allowed_ips", .str "10.0.0.1")]
  exact ⟨h1, h2 "allowed_ips" (.str "10.0.0.1") (by decide),
    h3 "remote_enabled" (.bool false) (by decide) (by decide)⟩

/-- C8: for a record containing at least all default keys, `save_settings`
followed by `load_settings` returns a record equal to the saved one (the
backfill loop finds every default key present and changes nothing), assuming
the write and read succeed. -/
theorem save_load_settings_roundtrip (m : Settings) (fs : FileContent)
    (h : ∀ kd ∈ _DEFAULT_SETTINGS, (slookup kd.1 m).isSome) :
    (load_settings (save_settings m fs)).1 = m := by
  have h1 := h ("remote_enabled", .bool false) (by decide)
  have h2 := h ("allowed_ips", .str "127.0.0.1") (by decide)
  have h3 := h ("auto_start_server", .bool true) (by decide)
  have h4 := h ("startup_remote_enabled", .bool false) (by decide)
  simp only [save_settings, load_settings, backfillDefaults, _DEFAULT_SETTINGS,
    List.foldl_cons, List.foldl_nil, insertIfMissing, h1, h2, h3, h4, if_pos]

/-- C8 witness: saving the default record and loading it back returns it
unchanged. -/
theorem save_load_settings_roundtrip_witness :
    (load_settings (save_settings _DEFAULT_SETTINGS .absent)).1 =
      _DEFAULT_SETTINGS :=
  save_load_settings_roundtrip _DEFAULT_SETTINGS .absent (by decide)

/-! ## Server lifecycle (rpc_server.py:564-614)

The module-level globals `rpc_server_instance` and `rpc_server_thread` are
`None` when stopped; `start_rpc_server` sets both, `stop_rpc_server` clears
both.  Observable side effects (binding the endpoint, spawning the listener
thread, scheduling the pump, shutting down, joining) are recorded in an
effect list so that "does not bind / spawn / raise" is visible in the model.
-/

/-- The lifecycle globals: `rpc_server_instance` (the bound endpoint,
host and port) and `rpc_server_thread` (the listener thread). -/
structure LifecycleState where
  serverInstance : Option (String × Nat)
  serverThread : Option Unit
deriving DecidableEq

/-- Observable lifecycle side effects. -/
inductive LifecycleEffect where
  /-- `FilteredXMLRPCServer((host, port), ...)` binds the endpoint -/
  | bindEndpoint
  /-- `threading.Thread(...).start()` spawns the listener thread -/
  | spawnServerThread
  /-- `QtCore.QTimer.singleShot(500, process_gui_tasks)` starts the pump -/
  | schedulePump
  /-- `rpc_server_instance.shutdown()` -/
  | shutdownEndpoint
  /-- `rpc_server_thread.join()` -/
  | joinServerThread
deriving DecidableEq

/-- `start_rpc_server(port=9875)` (rpc_server.py:564-599): if
`rpc_server_instance` is set, return the "already running" message at once
(no state change, no effects); otherwise read the settings, bind the
endpoint on `0.0.0.0` or `localhost`, spawn the listener thread, schedule
the pump and report the started message. -/
def start_rpc_server (settings : Settings) (port : Nat) (s : LifecycleState) :
    LifecycleState × String × List LifecycleEffect :=
  match s.serverInstance with
  | some _ => (s, "RPC Server already running.", [])
  | none =>
      let remote_enabled := (pyGet settings "remote_enabled" (.bool false)).pyTruthy
      let allowed_ips := (pyGet settings "allowed_ips" (.str "127.0.0.1")).pyStr
      let host := if remote_enabled then "0.0.0.0" else "localhost"
      let msg := "RPC Server started at " ++ host ++ ":" ++ toString port ++ "."
      let msg := if remote_enabled then msg ++ " Allowed IPs: " ++ allowed_ips else msg
      (⟨some (host, port), some ()⟩, msg,
       [.bindEndpoint, .spawnServerThread, .schedulePump])

/-- `stop_rpc_server()` (rpc_server.py:602-614): if `rpc_server_instance` is
set, shut the endpoint down, join the listener thread and clear both
globals; otherwise return the "was not running" message with no state change
and no effects (in particular nothing on this path can raise). -/
def stop_rpc_server (s : LifecycleState) :
    LifecycleState × String × List LifecycleEffect :=
  match s.serverInstance with
  | some _ => (⟨none, none⟩, "RPC Server stopped.",
               [.shutdownEndpoint, .joinServerThread])
  | none => (s, "RPC Server was not running.", [])

/-- C5: the lifecycle is a two-state machine on the option-valued globals.
Starting while running returns the "already running" indication, performs no
effect (no second endpoint bound, no second listener thread spawned) and
leaves the state unchanged; stopping while stopped returns the "not running"
indication, performs no effect and leaves the state unchanged. -/
theorem server_lifecycle_noop_edges :
    (∀ (settings : Settings) (port : Nat) (s : LifecycleState),
        s.serverInstance.isSome →
        start_rpc_server settings port s = (s, "RPC Server already running.", []))
    ∧
    (∀ s : LifecycleState, s.serverInstance = none →
        stop_rpc_server s = (s, "RPC Server was not running.", [])) := by
  constructor
  · intro settings port s h
    rcases s with ⟨inst, th⟩
    cases inst with
    | none => cases h
    | some v => rfl
  · intro s h
    rcases s with ⟨inst, th⟩
    cases inst with
    | none => rfl
    | some v => cases h

/-- C5 witness: a concrete running state is left unchanged by a second start
and a concrete stopped state is left unchanged by a redundant stop. -/
theorem server_lifecycle_noop_edges_witness :
    start_rpc_server _DEFAULT_SETTINGS 9875
        ⟨some ("localhost", 9875), some ()⟩ =
      (⟨some ("localhost", 9875), some ()⟩,
       "RPC Server already running.", []) ∧
    stop_rpc_server ⟨none, none⟩ =
      (⟨none, none⟩, "RPC Server was not running.", []) :=
  ⟨server_lifecycle_noop_edges.1 _DEFAULT_SETTINGS 9875
      ⟨some ("localhost", 9875), some ()⟩ rfl,
   server_lifecycle_noop_edges.2 ⟨none, none⟩ rfl⟩

/-! ## Allowed-IP validation (rpc_server.py:84-149)

`validate_allowed_ips` uses Python `str.strip`, `str.split(",")`, the
anchored regex `_COMMA_SEP_RE` and the stdlib `ipaddress.ip_network(entry,
strict=False)`.  The stdlib pieces are external collaborators; they are
modelled below with the modelling scope stated on each definition. -/

/-- ASCII whitespace as recognised by Python `str.strip` and `\s`
(space, tab, newline, carriage return, vertical tab, form feed; the
non-ASCII whitespace code points play no role here). -/
def pyIsSpace (c : Char) : Bool :=
  c = ' ' || c = '\t' || c = '\n' || c = '\r' || c = '\x0b' || c = '\x0c'

/-- Python `s.strip()`. -/
def pyStrip (s : String) : String :=
  ⟨((s.toList.dropWhile pyIsSpace).reverse.dropWhile pyIsSpace).reverse⟩

/-- States of the anchored regex
`_COMMA_SEP_RE = ^\s*[^,\s]+(\s*,\s*[^,\s]+)*\s*$` (rpc_server.py:106) read
left to right: `needEntry` = inside a leading or post-comma `\s*`, at least
one entry character still required; `inEntry` = inside `[^,\s]+`;
`afterEntry` = inside the `\s*` after a completed entry, awaiting a comma or
the end of the string. -/
inductive CommaSepState where
  | needEntry
  | inEntry
  | afterEntry

/-- One character step of `_COMMA_SEP_RE`; `none` = no match possible. -/
def commaSepStep : CommaSepState → Char → Option CommaSepState
  | .needEntry, c =>
      if pyIsSpace c then some .needEntry
      else if c = ',' then none
      else some .inEntry
  | .inEntry, c =>
      if c = ',' then some .needEntry
      else if pyIsSpace c then some .afterEntry
      else some .inEntry
  | .afterEntry, c =>
      if pyIsSpace c then some .afterEntry
      else if c = ',' then some .needEntry
      else none

/-- Running `_COMMA_SEP_RE` over the remaining characters; at the end of the
string only `inEntry`/`afterEntry` accept (an entry has been completed). -/
def commaSepRun : CommaSepState → List Char → Bool
  | st, [] =>
      match st with
      | .needEntry => false
      | _ => true
  | st, c :: cs =>
      match commaSepStep st c with
      | none => false
      | some st2 => commaSepRun st2 cs

/-- `_COMMA_SEP_RE.match(s)` as a Bool. -/
def commaSepMatch (s : String) : Bool :=
  commaSepRun .needEntry s.toList

/-- Python `s.split(sep)` for a single-character separator, over the
character list: splitting yields one (possibly empty) field per separator
gap, and splitting the empty string yields `[""]`. -/
def splitOnChar (sep : Char) : List Char → List (List Char)
  | [] => [[]]
  | c :: rest =>
      let r := splitOnChar sep rest
      if c = sep then [] :: r
      else
        match r with
        | [] => [[c]]
        | h :: t => (c :: h) :: t

/-- Python `s.split(sep)` for a single-character separator. -/
def pySplit (sep : Char) (s : String) : List String :=
  (splitOnChar sep s.toList).map (fun l => ⟨l⟩)

/-- ASCII decimal digit. -/
def isAsciiDigit (c : Char) : Bool :=
  decide (48 ≤ c.toNat) && decide (c.toNat ≤ 57)

/-- Value of an ASCII digit string. -/
def digitsToNat (cs : List Char) : Nat :=
  cs.foldl (fun a c => a * 10 + (c.toNat - 48)) 0

/-- No leading zero: CPython `ipaddress._parse_octet` rejects octets like
`"010"` (only the single digit `"0"` may start with `0`). -/
def noLeadingZero : List Char → Bool
  | c :: _ :: _ => !(c = '0')
  | _ => true

/-- One IPv4 octet per CPython `ipaddress._parse_octet`: one to three ASCII
digits, no leading zero, value at most 255. -/
def isValidOctet (s : String) : Bool :=
  let cs := s.toList
  decide (0 < cs.length) && decide (cs.length ≤ 3) && cs.all isAsciiDigit &&
    noLeadingZero cs && decide (digitsToNat cs ≤ 255)

/-- An IPv4 address string per CPython `ipaddress.IPv4Address`: exactly four
valid octets separated by dots. -/
def isValidIPv4Addr (s : String) : Bool :=
  let parts := pySplit '.' s
  decide (parts.length = 4) && parts.all isValidOctet

/-- An IPv4 prefix length per CPython
`ipaddress._prefix_from_prefix_string`: a nonempty ASCII digit string whose
value is at most 32. -/
def isValidPrefixLen32 (s : String) : Bool :=
  let cs := s.toList
  !cs.isEmpty && cs.all isAsciiDigit && decide (digitsToNat cs ≤ 32)

/-- Validity of `ipaddress.ip_network(entry, strict=False)`, modelled on the
IPv4 fragment the program's configuration uses: a dotted-quad address with
an optional `/<decimal prefix>` part.  IPv6 spellings (entries containing a
colon) and dotted-netmask prefixes are outside the modelled fragment and map
to `false`; no configuration string in the claims uses them. -/
def ip_network_ok (s : String) : Bool :=
  if s.toList.contains ':' then false
  else
    match pySplit '/' s with
    | [a] => isValidIPv4Addr a
    | [a, p] => isValidIPv4Addr a && isValidPrefixLen32 p
    | _ => false

/-- ASCII apostrophe, used by the f-string `Invalid IP/subnet: ...`. -/
def apos : String := String.singleton '\x27'

/-- `validate_allowed_ips` (rpc_server.py:109-141), transcribed:

1. empty or blank input → `([], ["Input must not be empty."])`;
2. `_COMMA_SEP_RE` fails → `([], [<malformed-list message>])`;
3. otherwise split on `","`, strip each entry, collect the entries
   `ip_network` accepts into `valid` and an `Invalid IP/subnet` message for
   each rejected entry into `errors`, in loop order. -/
def validate_allowed_ips (allowed_ips_str : String) :
    List String × List String :=
  if allowed_ips_str.isEmpty || (pyStrip allowed_ips_str).isEmpty then
    ([], ["Input must not be empty."])
  else if !commaSepMatch allowed_ips_str then
    ([], ["Malformed list — check for leading/trailing commas, double commas, or missing separators."])
  else
    (pySplit ',' allowed_ips_str).foldl
      (fun acc e =>
        let entry := pyStrip e
        if ip_network_ok entry then (acc.1 ++ [entry], acc.2)
        else (acc.1, acc.2 ++ ["Invalid IP/subnet: " ++ apos ++ entry ++ apos]))
      ([], [])

/-- C6: the three documented evaluations of `validate_allowed_ips`.
`"127.0.0.1, 10.0.0.0/8"` yields both entries valid and no errors;
`"127.0.0.1,,10.0.0.1"` yields no valid entries and exactly the one
malformed-list error; `"not-an-ip"` yields no valid entries and exactly one
invalid-entry error naming the entry. -/
theorem validate_allowed_ips_examples :
    validate_allowed_ips "127.0.0.1, 10.0.0.0/8" =
      (["127.0.0.1", "10.0.0.0/8"], []) ∧
    validate_allowed_ips "127.0.0.1,,10.0.0.1" =
      ([], ["Malformed list — check for leading/trailing commas, double commas, or missing separators."]) ∧
    validate_allowed_ips "not-an-ip" =
      ([], ["Invalid IP/subnet: " ++ apos ++ "not-an-ip" ++ apos]) := by
  refine ⟨?_, ?_, ?_⟩ <;> rfl

/-! ## The IP filter (rpc_server.py:84-103, 144-149) -/

/-- Numeric value of a valid IPv4 address string. -/
def parseIPv4 (s : String) : Option Nat :=
  if isValidIPv4Addr s then
    some ((pySplit '.' s).foldl (fun a o => a * 256 + digitsToNat o.toList) 0)
  else none

/-- An `ipaddress.ip_network` value: masked network address and prefix
length. -/
structure IPNetwork where
  netAddr : Nat
  prefixLen : Nat
deriving DecidableEq

/-- `ipaddress.ip_network(entry, strict=False)` on a valid IPv4 entry: with
`strict=False` the host bits are masked away; a bare address gets prefix
length 32. -/
def parseIPv4Network (s : String) : Option IPNetwork :=
  match pySplit '/' s with
  | [a] => (parseIPv4 a).map (fun n => ⟨n, 32⟩)
  | [a, p] =>
      if isValidPrefixLen32 p then
        (parseIPv4 a).map (fun n =>
          let pl := digitsToNat p.toList
          let host := 2 ^ (32 - pl)
          ⟨n / host * host, pl⟩)
      else none
  | _ => none

/-- `_parse_allowed_ips` (rpc_server.py:144-149): validate the string, log
each error, and build a network object from every entry that passed
validation (every valid entry parses, so the `filterMap` keeps them all). -/
def _parse_allowed_ips (allowed_ips_str : String) : List IPNetwork :=
  (validate_allowed_ips allowed_ips_str).1.filterMap parseIPv4Network

/-- `addr in network`: the address agrees with the network address on the
prefix bits. -/
def IPNetwork.containsAddr (net : IPNetwork) (a : Nat) : Bool :=
  a / 2 ^ (32 - net.prefixLen) * 2 ^ (32 - net.prefixLen) == net.netAddr

/-- `FilteredXMLRPCServer.verify_request` (rpc_server.py:91-103): parse the
client address (`ValueError` is caught and falls through), return `True` on
the first allowed network containing it, and `False` otherwise — also when
the allowed-network list is empty. -/
def verify_request (allowed_networks : List IPNetwork) (client_ip : String) :
    Bool :=
  match parseIPv4 client_ip with
  | none => false
  | some addr => allowed_networks.any (fun net => net.containsAddr addr)

/-- C9: the filter fails closed.  For every allowed-IPs string in which no
entry is a valid IP/subnet (the validated list is empty, hence the parsed
network list is empty), `verify_request` rejects every client address. -/
theorem verify_request_fails_closed (s : String)
    (h : (validate_allowed_ips s).1 = []) (client : String) :
    verify_request (_parse_allowed_ips s) client = false := by
  unfold verify_request _parse_allowed_ips
  rw [h]
  cases parseIPv4 client <;> simp

/-- C9 witness: with the all-invalid configuration `"not-an-ip"` even the
loopback client `127.0.0.1` is rejected. -/
theorem verify_request_fails_closed_witness :
    (validate_allowed_ips "not-an-ip").1 = [] ∧
    verify_request (_parse_allowed_ips "not-an-ip") "127.0.0.1" = false :=
  ⟨rfl, verify_request_fails_closed "not-an-ip" rfl "127.0.0.1"⟩

/-! ## `FreeCADRPC.create_object`, transport side (rpc_server.py:265-277) -/

/-- A Python value on the RPC boundary (the JSON-ish value set the XML-RPC
layer carries). -/
inductive PyVal where
  | vnone
  | vbool (b : Bool)
  | vstr (s : String)
  | vdict (entries : List (String × PyVal))

/-- Dict lookup on a Python mapping. -/
def plookup (k : String) : List (String × PyVal) → Option PyVal
  | [] => none
  | (k2, v) :: rest => if k2 = k then some v else plookup k rest

/-- The `Object` dataclass (rpc_server.py:165-170) as
`FreeCADRPC.create_object` builds it; the constructor arguments keep
whatever values the request mapping held. -/
structure Object where
  name : PyVal
  type : PyVal
  analysis : PyVal
  properties : PyVal

/-- A deep representation of the closures `FreeCADRPC` methods enqueue on
`rpc_request_queue`. -/
inductive GuiTask where
  | createDocument (name : String)
  | createObject (docName : String) (obj : Object)

/-- The queue pair as seen by a transport-side method: pending Work Items
and completed results. -/
structure RpcQueues where
  pending : List GuiTask
  completed : List PyVal

/-- A raised Python exception. -/
inductive PyError where
  | keyError (key : String)
deriving DecidableEq

/-- The observable outcome of one transport-side call: an uncaught
exception, a forever-blocking response get, or a returned response
envelope. -/
inductive CallOutcome where
  | raised (e : PyError)
  | blocked
  | returned (envelope : PyVal)

/-- `res is True`. -/
def PyVal.isTrue : PyVal → Bool
  | .vbool b => b
  | _ => false

/-- `FreeCADRPC.create_object` (rpc_server.py:265-277), transcribed.  The
`Object(...)` constructor arguments are evaluated first, in order:
`obj_data.get("Name", "New_Object")`, then the plain subscript
`obj_data["Type"]` — which raises `KeyError` when the key is absent — then
`obj_data.get("Analysis", None)` and `obj_data.get("Properties", {})`.
Only afterwards is the Work Item put on `rpc_request_queue` and the blocking
`rpc_response_queue.get()` performed (modelled as popping the completed
queue head, `blocked` when it stays empty). -/
def create_object_rpc (doc_name : String)
    (obj_data : List (String × PyVal)) (q : RpcQueues) :
    CallOutcome × RpcQueues :=
  let name := (plookup "Name" obj_data).getD (.vstr "New_Object")
  match plookup "Type" obj_data with
  | none => (.raised (.keyError "Type"), q)
  | some tv =>
      let analysis := (plookup "Analysis" obj_data).getD .vnone
      let properties := (plookup "Properties" obj_data).getD (.vdict [])
      let obj : Object := ⟨name, tv, analysis, properties⟩
      let q1 : RpcQueues := ⟨q.pending ++ [.createObject doc_name obj], q.completed⟩
      match q1.completed with
      | [] => (.blocked, q1)
      | res :: rest =>
          let q2 : RpcQueues := ⟨q1.pending, rest⟩
          if res.isTrue then
            (.returned (.vdict [("success", .vbool true),
              ("data", .vdict [("object_name", obj.name)]),
              ("error", .vnone)]), q2)
          else
            (.returned (.vdict [("success", .vbool false),
              ("data", .vnone), ("error", res)]), q2)

/-- C10: when the request mapping has no `"Type"` key,
`FreeCADRPC.create_object` raises `KeyError` while evaluating the `Object`
constructor arguments, before any Work Item is enqueued: the call fails
atomically, leaving the pending and completed queues unchanged. -/
theorem create_object_missing_type_atomic (doc_name : String)
    (obj_data : List (String × PyVal)) (q : RpcQueues)
    (h : plookup "Type" obj_data = none) :
    create_object_rpc doc_name obj_data q = (.raised (.keyError "Type"), q) := by
  unfold create_object_rpc
  rw [h]

/-- C10 witness: a concrete request mapping carrying only a `"Name"` key
raises `KeyError` and leaves a concrete queue state untouched. -/
theorem create_object_missing_type_atomic_witness :
    create_object_rpc "Doc" [("Name", .vstr "Box")]
        ⟨[.createDocument "Doc"], []⟩ =
      (.raised (.keyError "Type"), ⟨[.createDocument "Doc"], []⟩) :=
  create_object_missing_type_atomic "Doc" [("Name", .vstr "Box")]
    ⟨[.createDocument "Doc"], []⟩ rfl

end FreeCADMCP
